import Mathlib

/-!
A verification development for the McpServer repository's cloudprepper
toolkit: the domain-coverage gap analyzer (`analyzeCoverage` in
`src/cloudprepper_mcp/src/tools/domainCoverage.ts`), the batch
question-generation orchestrator (`pollBatchStatus`,
`generateBatchQuestions`, `mapQuestionsToGenerated` in
`src/cloudprepper_mcp/src/tools/questionBatchGenerator.ts`), the output
filename scheme (`generateFilename`), and the SQL serialization
(`formatQuestionsAsSQL` in `questionGenerator.ts`).

JavaScript numbers are embedded as exact rationals, with an explicit
`JsNum` sum type capturing the NaN/Infinity results of division by zero
(the only place the analyzed code can produce them). JavaScript strings
are embedded as `String`/`List Char`. Fallible code paths (out-of-range
index accesses that would throw `TypeError` in JS) are embedded as
`Option`.
-/

namespace McpServer

/-! ## JS number semantics for the coverage analyzer

`analyzeCoverage` computes `percentage = (currentCount / targetCount) * 100`
with no guard on `targetCount = 0`. In JS, `0/0 = NaN` and `x/0 = Infinity`
for `x > 0`; `NaN < 80` and `NaN > 120` are both false; `Infinity > 120` is
true; `Math.round` is the identity on NaN and Infinity. `JsNum` captures
exactly these cases; finite values are exact rationals. -/

inductive JsNum where
  | nan
  | inf
  | ninf
  | fin (q : ℚ)
deriving DecidableEq, Repr

/-- JS division `a / b`, total: division by zero yields NaN or ±Infinity. -/
def jsDiv (a b : ℚ) : JsNum :=
  if b = 0 then
    if a = 0 then .nan else if 0 < a then .inf else .ninf
  else .fin (a / b)

/-- Multiply a `JsNum` by a positive finite constant (used with `c = 100`). -/
def JsNum.mulPos (x : JsNum) (c : ℚ) : JsNum :=
  match x with
  | .nan => .nan
  | .inf => .inf
  | .ninf => .ninf
  | .fin q => .fin (q * c)

/-- JS `x < c` for a finite threshold `c`: false on NaN and `Infinity`. -/
def JsNum.ltc (x : JsNum) (c : ℚ) : Bool :=
  match x with
  | .nan => false
  | .inf => false
  | .ninf => true
  | .fin q => decide (q < c)

/-- JS `x > c` for a finite threshold `c`: false on NaN, true on `Infinity`. -/
def JsNum.gtc (x : JsNum) (c : ℚ) : Bool :=
  match x with
  | .nan => false
  | .inf => true
  | .ninf => false
  | .fin q => decide (c < q)

/-- JS `Math.round`: round half toward positive infinity. -/
def jsRound (q : ℚ) : ℤ := ⌊q + 1 / 2⌋

/-- `Math.round` lifted to `JsNum`: identity on NaN and ±Infinity. -/
def JsNum.round (x : JsNum) : JsNum :=
  match x with
  | .fin q => .fin (jsRound q)
  | x => x

/-! ## Coverage analyzer (`domainCoverage.ts`, `analyzeCoverage`) -/

/-- One entry of `DOMAIN_WEIGHTS[certType]` (`constants.ts`): a domain name
and its weight percentage. Subdomains are not read by `analyzeCoverage`. -/
structure DomainInfo where
  name : String
  weight : ℚ
deriving DecidableEq, Repr

inductive CoverageStatus where
  | under
  | onTarget
  | over
deriving DecidableEq, Repr

/-- The per-domain record pushed onto `domainCoverages`. -/
structure DomainCoverageRow where
  domain_name : String
  current_count : ℚ
  target_count : ℤ
  percentage : JsNum
  status : CoverageStatus
deriving DecidableEq, Repr

/-- `currentCounts[domain.name] || 0`: a missing key reads as `undefined`
(falsy) and an explicit `0` is falsy; both give `0`, i.e. lookup with
default `0`. -/
def lookupCount (counts : List (String × ℚ)) (name : String) : ℚ :=
  (counts.lookup name).getD 0

/-- The body of the `for (const domain of domains)` loop in
`analyzeCoverage` (`domainCoverage.ts` lines 128-158), for one domain:
`targetCount = Math.round((weight / 100) * targetTotal)`,
`percentage = (currentCount / targetCount) * 100` (unguarded JS division),
then the `< 80` / `> 120` classification; the stored `percentage` is
`Math.round(percentage)`. -/
def analyzeDomain (targetTotal : ℚ) (counts : List (String × ℚ))
    (d : DomainInfo) : DomainCoverageRow :=
  let currentCount := lookupCount counts d.name
  let targetCount : ℤ := jsRound (d.weight / 100 * targetTotal)
  let percentage := (jsDiv currentCount (targetCount : ℚ)).mulPos 100
  let status : CoverageStatus :=
    if percentage.ltc 80 then .under
    else if percentage.gtc 120 then .over
    else .onTarget
  { domain_name := d.name
    current_count := currentCount
    target_count := targetCount
    percentage := percentage.round
    status := status }

/-- The gap line pushed for an under-target domain:
`` `${name}: Need ${needed} more questions (${current}/${target})` ``. -/
def gapLine (d : DomainCoverageRow) : String :=
  d.domain_name ++ ": Need " ++ toString ((d.target_count : ℚ) - d.current_count)
    ++ " more questions (" ++ toString d.current_count ++ "/"
    ++ toString d.target_count ++ ")"

/-- The line pushed for an over-target domain:
`` `${name}: ${excess} questions over target (${current}/${target})` ``. -/
def overLine (d : DomainCoverageRow) : String :=
  d.domain_name ++ ": " ++ toString (d.current_count - (d.target_count : ℚ))
    ++ " questions over target (" ++ toString d.current_count ++ "/"
    ++ toString d.target_count ++ ")"

/-- The full result of `analyzeCoverage`. -/
structure CoverageAnalysis where
  certification_type : String
  total_questions : ℚ
  target_questions : ℚ
  domains : List DomainCoverageRow
  overall_coverage_percentage : JsNum
  gaps : List String
  overrepresented : List String
deriving DecidableEq, Repr

/-- `analyzeCoverage(certType, targetTotal, currentCounts)`
(`domainCoverage.ts` lines 116-172), with the `DOMAIN_WEIGHTS[certType]`
list passed explicitly. Each domain contributes one row; `gaps` and
`overrepresented` collect the under/over lines in iteration order;
`overall = Math.round(totalCurrent / targetTotal * 100)`. -/
def analyzeCoverage (certType : String) (domains : List DomainInfo)
    (targetTotal : ℚ) (counts : List (String × ℚ)) : CoverageAnalysis :=
  let rows := domains.map (analyzeDomain targetTotal counts)
  let totalCurrent := (domains.map (fun d => lookupCount counts d.name)).sum
  { certification_type := certType
    total_questions := totalCurrent
    target_questions := targetTotal
    domains := rows
    overall_coverage_percentage := ((jsDiv totalCurrent targetTotal).mulPos 100).round
    gaps := (rows.filter (fun r => r.status = .under)).map gapLine
    overrepresented := (rows.filter (fun r => r.status = .over)).map overLine }

/-- The `CV0-004` entry of `DOMAIN_WEIGHTS` (`constants.ts`). -/
def domainWeightsCV0004 : List DomainInfo :=
  [⟨"Cloud Architecture and Design", 23⟩,
   ⟨"Cloud Deployment", 19⟩,
   ⟨"Cloud Security", 19⟩,
   ⟨"Cloud Operations and Support", 17⟩,
   ⟨"Troubleshooting", 12⟩,
   ⟨"DevOps Fundamentals", 10⟩]

/-! ## Output filename scheme (`questionBatchGenerator.ts`, `generateFilename`)

`generateFilename` derives the timestamp from
`new Date().toISOString().replace(/[:.]/g, '-').slice(0, -5)`: the ISO
string `YYYY-MM-DDTHH:mm:ss.mmmZ` with `:` and `.` turned into `-`, then
the last five characters (`-mmmZ`) cut off — i.e. truncated to whole
seconds. Characters are modeled as `List Char`; the fixed-width digit
fields are built with `Nat.digitChar`, which agrees with JS for in-range
date components. -/

/-- Two-digit zero-padded decimal field of an in-range component. -/
def pad2 (n : Nat) : List Char :=
  [Nat.digitChar (n / 10 % 10), Nat.digitChar (n % 10)]

/-- Three-digit zero-padded milliseconds field. -/
def pad3 (n : Nat) : List Char :=
  [Nat.digitChar (n / 100 % 10), Nat.digitChar (n / 10 % 10), Nat.digitChar (n % 10)]

/-- Four-digit zero-padded year field. -/
def pad4 (n : Nat) : List Char :=
  [Nat.digitChar (n / 1000 % 10), Nat.digitChar (n / 100 % 10),
   Nat.digitChar (n / 10 % 10), Nat.digitChar (n % 10)]

/-- A wall-clock instant as rendered by `Date.prototype.toISOString`. -/
structure JsDate where
  year : Nat
  month : Nat
  day : Nat
  hour : Nat
  minute : Nat
  second : Nat
  ms : Nat
deriving DecidableEq, Repr

/-- The date-and-time prefix `YYYY-MM-DDTHH:mm:ss` of the ISO string. -/
def isoDatePrefix (t : JsDate) : List Char :=
  pad4 t.year ++ '-' :: pad2 t.month ++ '-' :: pad2 t.day
    ++ 'T' :: pad2 t.hour ++ ':' :: pad2 t.minute ++ ':' :: pad2 t.second

/-- `toISOString()`: `YYYY-MM-DDTHH:mm:ss.mmmZ` (the prefix plus the
5-character `.mmmZ` suffix). -/
def toISOChars (t : JsDate) : List Char :=
  isoDatePrefix t ++ ('.' :: pad3 t.ms ++ ['Z'])

/-- `.replace(/[:.]/g, '-')`: every `:` or `.` becomes `-`. -/
def replaceColonDot (l : List Char) : List Char :=
  l.map (fun c => if c = ':' ∨ c = '.' then '-' else c)

/-- `.slice(0, -5)`: all but the last five characters. -/
def sliceDropLast5 (l : List Char) : List Char :=
  l.take (l.length - 5)

/-- The timestamp component of the filename. -/
def filenameTimestamp (t : JsDate) : List Char :=
  sliceDropLast5 (replaceColonDot (toISOChars t))

/-- ASCII alphanumeric test, as the regex class `[a-zA-Z0-9]`. -/
def isAsciiAlphanum (c : Char) : Bool :=
  ('a' ≤ c ∧ c ≤ 'z') ∨ ('A' ≤ c ∧ c ≤ 'Z') ∨ ('0' ≤ c ∧ c ≤ '9')

/-- `cert.replace(/[^a-zA-Z0-9]/g, '')`: drop non-alphanumerics. -/
def stripNonAlphanum (l : List Char) : List Char :=
  l.filter isAsciiAlphanum

/-- `domain.replace(/[^a-zA-Z0-9]/g, '_').substring(0, 20)`. -/
def underscoreNonAlphanum (l : List Char) : List Char :=
  (l.map (fun c => if isAsciiAlphanum c then c else '_')).take 20

/-- `generateFilename(params, count)` at a given instant
(`questionBatchGenerator.ts` lines 164-172):
`` `batch_${cert}_${domain}_${count}q_${timestamp}.sql` ``. -/
def generateFilename (certType : List Char) (domainName : Option (List Char))
    (count : Nat) (t : JsDate) : List Char :=
  "batch_".data ++ stripNonAlphanum certType
    ++ "_".data ++ (match domainName with
                    | some d => underscoreNonAlphanum d
                    | none => "all".data)
    ++ "_".data ++ (toString count).data ++ "q_".data
    ++ filenameTimestamp t ++ ".sql".data

/-! ## JS string helpers -/

/-- JS `a || b` on strings: the empty string is falsy. -/
def jsOrStr (a b : String) : String :=
  if a = "" then b else a

/-- JS `a || b` where `a` may be `undefined` (`none`). -/
def jsOrOptStr (a : Option String) (b : String) : String :=
  match a with
  | some s => jsOrStr s b
  | none => b

/-- Whether `p` is an initial segment of `l`. -/
def listStarts : List Char → List Char → Bool
  | [], _ => true
  | _ :: _, [] => false
  | p :: ps, c :: cs => p = c && listStarts ps cs

/-- Whether `pat` occurs contiguously inside `l`. -/
def hasSubstr (pat : List Char) : List Char → Bool
  | [] => listStarts pat []
  | c :: t => listStarts pat (c :: t) || hasSubstr pat t

/-- JS `s.includes(pat)`. -/
def strIncludes (s pat : String) : Bool :=
  hasSubstr pat.data s.data

/-! ## Question records and `mapQuestionsToGenerated`
(`questionBatchGenerator.ts` lines 1008-1074) -/

/-- `cognitive_level` / `skill_level` request parameters: absent, a single
value, or an array (the batch schema allows both shapes). -/
inductive LevelParam where
  | null
  | one (s : String)
  | many (l : List String)
deriving DecidableEq, Repr

/-- The fallback single value: `Array.isArray(p) ? p[0] : p`
(`p[0]` of an empty array is `undefined`). -/
def LevelParam.fallback : LevelParam → Option String
  | .null => none
  | .one s => some s
  | .many l => l.head?

/-- The validated tool input fields read by the generator and mapper. -/
structure GenParams where
  certification_type : String
  domain_name : Option String
  cognitive_level : LevelParam
  skill_level : LevelParam
  count : Nat
deriving DecidableEq, Repr

/-- A raw question record in a backend response body: every field the
mapper reads, optional where the code guards with `||`. -/
structure BackendQuestion where
  question_text : String
  options : List String
  correct_answers : List Nat
  explanation : String
  domain : Option String
  category : Option String
  subdomain : Option String
  cognitive_level : Option String
  skill_level : Option String
  tags : Option (List String)
  references : Option (List String)
deriving DecidableEq, Repr

/-- A mapped `GeneratedQuestion` object as built by
`mapQuestionsToGenerated` (and consumed by `formatQuestionsAsSQL`). -/
structure GeneratedQuestion where
  question_text : String
  options : List String
  correct_answers : List Nat
  multiple_answers : String
  explanation : String
  domain : String
  category : String
  cognitive_level : String
  skill_level : String
  tags : List String
  references : List String
deriving DecidableEq, Repr

/-- The per-record body of `mapQuestionsToGenerated`
(`questionBatchGenerator.ts` lines 1028-1049): `multiple_answers` is
`"1"` exactly when `correct_answers.length > 1`; the `||` fallback
chains fill `domain`, `category` and the level labels. -/
def mapQuestionToGenerated (params : GenParams) (q : BackendQuestion) :
    GeneratedQuestion :=
  { question_text := q.question_text
    options := q.options
    correct_answers := q.correct_answers
    multiple_answers := if 1 < q.correct_answers.length then "1" else "0"
    explanation := q.explanation
    domain := jsOrOptStr q.domain (jsOrOptStr params.domain_name "General")
    category := jsOrOptStr q.category
      (jsOrOptStr q.subdomain "Certification Topic")
    cognitive_level := jsOrOptStr q.cognitive_level
      (jsOrOptStr params.cognitive_level.fallback "Application")
    skill_level := jsOrOptStr q.skill_level
      (jsOrOptStr params.skill_level.fallback "Intermediate")
    tags := q.tags.getD []
    references := q.references.getD [] }

/-- `mapQuestionsToGenerated(questions, params)`. -/
def mapQuestionsToGenerated (params : GenParams)
    (qs : List BackendQuestion) : List GeneratedQuestion :=
  qs.map (mapQuestionToGenerated params)

/-! ## SQL serialization (`questionGenerator.ts`, `formatQuestionsAsSQL`,
lines 281-363)

Text fields are escaped with `escapeSQL = text.replace(/'/g, "''")` and
interpolated into single-quoted PostgreSQL string literals; the options
list is `JSON.stringify`-ed first; correct answers are stored as a
`TEXT[]` of the *answer texts* (not the indices). An out-of-range answer
index makes the JS crash on `undefined.replace`; the embedding returns
`none` there. -/

/-- `escapeSQL`: double every single quote. -/
def escQ : List Char → List Char
  | [] => []
  | c :: t => if c = '\'' then '\'' :: '\'' :: escQ t else c :: escQ t

/-- Parse a PostgreSQL string-literal body (after the opening quote) under
standard string-literal rules: `''` is an escaped quote, a lone `'`
terminates. Returns the decoded text and the input after the literal. -/
def parseSqlLit : List Char → Option (List Char × List Char)
  | [] => none
  | c :: t =>
      if c = '\'' then
        match t with
        | [] => some ([], [])
        | c2 :: t2 =>
            if c2 = '\'' then
              (parseSqlLit t2).map (fun p => ('\'' :: p.1, p.2))
            else some ([], t)
      else (parseSqlLit t).map (fun p => (c :: p.1, p.2))

/-- Lowercase hex digit, as emitted by `JSON.stringify` escapes. -/
def jsonHexDigit (n : Nat) : Char :=
  if n < 10 then Char.ofNat ('0'.toNat + n) else Char.ofNat ('a'.toNat + (n - 10))

/-- One character as escaped by `JSON.stringify` inside a string value. -/
def jsonEscChar (c : Char) : List Char :=
  if c = '"' then ['\\', '"']
  else if c = '\\' then ['\\', '\\']
  else if c = '\n' then ['\\', 'n']
  else if c = '\r' then ['\\', 'r']
  else if c = '\t' then ['\\', 't']
  else if c = Char.ofNat 8 then ['\\', 'b']
  else if c = Char.ofNat 12 then ['\\', 'f']
  else if c.toNat < 32 then
    ['\\', 'u', '0', '0', jsonHexDigit (c.toNat / 16), jsonHexDigit (c.toNat % 16)]
  else [c]

/-- A JSON string value, quotes included. -/
def jsonStr (s : String) : List Char :=
  '"' :: (s.data.flatMap jsonEscChar ++ ['"'])

/-- The comma-separated elements of a JSON array of strings. -/
def jsonArrCore : List String → List Char
  | [] => []
  | [s] => jsonStr s
  | s :: t => jsonStr s ++ ',' :: jsonArrCore t

/-- `JSON.stringify` of an array of strings. -/
def jsonArr (l : List String) : List Char :=
  '[' :: (jsonArrCore l ++ [']'])

/-- Hex digit value (accepting the lowercase digits the encoder emits). -/
def hexVal (c : Char) : Option Nat :=
  if '0' ≤ c ∧ c ≤ '9' then some (c.toNat - '0'.toNat)
  else if 'a' ≤ c ∧ c ≤ 'f' then some (c.toNat - 'a'.toNat + 10)
  else none

/-- Decode a single-character JSON escape. -/
def junescapeChar (e : Char) : Option Char :=
  if e = '"' ∨ e = '\\' ∨ e = '/' then some e
  else if e = 'n' then some '\n'
  else if e = 'r' then some '\r'
  else if e = 't' then some '\t'
  else if e = 'b' then some (Char.ofNat 8)
  else if e = 'f' then some (Char.ofNat 12)
  else none

/-- Parse a JSON string body after the opening quote; returns the decoded
characters and the rest of the input. A `\u` escape is tried first, then
the single-character escapes, as in the JSON grammar. -/
def parseJsonStrAux : List Char → Option (List Char × List Char)
  | [] => none
  | c :: rest =>
      if c = '"' then some ([], rest)
      else if c = '\\' then
        match rest with
        | 'u' :: a :: b :: c3 :: d :: rest3 =>
            match hexVal a, hexVal b, hexVal c3, hexVal d with
            | some va, some vb, some vc, some vd =>
                (parseJsonStrAux rest3).map
                  (fun p => (Char.ofNat (((va * 16 + vb) * 16 + vc) * 16 + vd) :: p.1, p.2))
            | _, _, _, _ => none
        | e :: rest2 =>
            match junescapeChar e with
            | some ch => (parseJsonStrAux rest2).map (fun p => (ch :: p.1, p.2))
            | none => none
        | [] => none
      else (parseJsonStrAux rest).map (fun p => (c :: p.1, p.2))

/-- Parse the nonempty element list of a JSON string array (fuel-bounded;
one unit of fuel per element). -/
def parseJsonElems : Nat → List Char → Option (List (List Char) × List Char)
  | 0, _ => none
  | fuel + 1, '"' :: t =>
      match parseJsonStrAux t with
      | some (s, ',' :: r2) =>
          match parseJsonElems fuel r2 with
          | some (ss, r3) => some (s :: ss, r3)
          | none => none
      | some (s, ']' :: r2) => some ([s], r2)
      | _ => none
  | _ + 1, _ => none

/-- Parse a JSON array of strings; returns the decoded element texts and
the rest of the input. -/
def parseJsonStrArr : List Char → Option (List (List Char) × List Char)
  | '[' :: t =>
      match t with
      | ']' :: rest => some ([], rest)
      | _ => parseJsonElems t.length t
  | _ => none

/-- The opening brace character (JSON object delimiter). -/
def lbrace : Char := Char.ofNat 123

/-- The closing brace character (JSON object delimiter). -/
def rbrace : Char := Char.ofNat 125

/-- A JSON object key followed by `:`. -/
def jsonKey (s : String) : List Char :=
  jsonStr s ++ [':']

/-- `JSON.stringify(explanationDetails)` for the
`{domain, category, tags, references}` object built by
`formatQuestionsAsSQL`. -/
def jsonExplanationDetails (q : GeneratedQuestion) : List Char :=
  lbrace :: (jsonKey "domain" ++ jsonStr q.domain
    ++ ',' :: jsonKey "category" ++ jsonStr q.category
    ++ ',' :: jsonKey "tags" ++ jsonArr q.tags
    ++ ',' :: jsonKey "references" ++ jsonArr q.references
    ++ [rbrace])

/-- The escaped text fragments interpolated into one INSERT statement:
exactly the template holes of `formatQuestionsAsSQL` for one question. -/
structure SQLRow where
  category : List Char
  domain : List Char
  questionText : List Char
  optionsJson : List Char
  correctAnswer : Option (List Char)
  explanation : List Char
  explanationDetails : List Char
  multipleAnswers : Bool
  correctAnswersTexts : List (List Char)
  cognitiveLevel : List Char
  skillLevel : List Char
deriving DecidableEq, Repr

/-- The per-question body of `formatQuestionsAsSQL`
(`questionGenerator.ts` lines 295-354). `none` models the JS
`TypeError` thrown by `escapeSQL(undefined)` when an answer index is out
of range (or `correct_answers` is empty in the single-answer branch);
`correctAnswer = none` renders as the unquoted `NULL`. -/
def rowOfQuestion (q : GeneratedQuestion) : Option SQLRow :=
  match q.correct_answers.mapM
      (fun i => (q.options.get? i).map (fun s => escQ s.data)) with
  | none => none
  | some answerTexts =>
      match (if 1 < q.correct_answers.length then some none
             else match q.correct_answers.get? 0 with
                  | none => none
                  | some i =>
                      match q.options.get? i with
                      | none => none
                      | some t => some (some (escQ t.data))) with
      | none => none
      | some correctAnswer =>
          some
            { category := escQ (jsOrStr q.domain "General").data
              domain := escQ (jsOrStr q.domain (jsOrStr q.domain "General")).data
              questionText := escQ q.question_text.data
              optionsJson := escQ (jsonArr q.options)
              correctAnswer := correctAnswer
              explanation := escQ q.explanation.data
              explanationDetails := escQ (jsonExplanationDetails q)
              multipleAnswers := decide (1 < q.correct_answers.length)
              correctAnswersTexts := answerTexts
              cognitiveLevel := q.cognitive_level.data
              skillLevel := q.skill_level.data }

/-- The comma-space separated quoted elements of the `ARRAY[...]`
constructor (`.map(a => `'${escapeSQL(a)}'`).join(', ')`). -/
def renderSqlArrayCore : List (List Char) → List Char
  | [] => []
  | [t] => '\'' :: (t ++ ['\''])
  | t :: rest => '\'' :: (t ++ '\'' :: ',' :: ' ' :: renderSqlArrayCore rest)

/-- The `ARRAY['...', '...']` constructor for `correct_answers`. -/
def renderSqlArray (ts : List (List Char)) : List Char :=
  "ARRAY[".data ++ renderSqlArrayCore ts ++ [']']

/-- The full INSERT statement text for one row, following the template
string of `formatQuestionsAsSQL` verbatim. -/
def renderInsert (r : SQLRow) : List Char :=
  ("INSERT INTO prepper.comptia_cloud_plus_questions(\n  question_id,\n"
    ++ "  question_number,\n  category,\n  domain,\n  question_text,\n"
    ++ "  options,\n  correct_answer,\n  explanation,\n"
    ++ "  explanation_details,\n  multiple_answers,\n  correct_answers,\n"
    ++ "  cognitive_level,\n  skill_level\n)\nVALUES (\n"
    ++ "  nextval('prepper.question_id_seq'),\n"
    ++ "  nextval('prepper.question_number_seq'),\n  '").data
  ++ r.category ++ "',\n  '".data
  ++ r.domain ++ "',\n  '".data
  ++ r.questionText ++ "',\n  '".data
  ++ r.optionsJson ++ "'::jsonb,\n  ".data
  ++ (match r.correctAnswer with
      | none => "NULL".data
      | some t => '\'' :: (t ++ ['\'']))
  ++ ",\n  '".data
  ++ r.explanation ++ "',\n  '".data
  ++ r.explanationDetails ++ "'::jsonb,\n  ".data
  ++ (if r.multipleAnswers then "1".data else "0".data)
  ++ ",\n  ".data
  ++ renderSqlArray r.correctAnswersTexts
  ++ ",\n  '".data
  ++ r.cognitiveLevel ++ "',\n  '".data
  ++ r.skillLevel ++ "'\n);".data

/-- The metadata argument of `formatQuestionsAsSQL`. -/
structure SQLMeta where
  certification_type : String
  domain_name : Option String
deriving DecidableEq, Repr

/-- The comment header lines pushed before the statements. -/
def sqlHeaderLines (meta : SQLMeta) (count : Nat) : List (List Char) :=
  ["-- Generated SQL INSERT statements for CloudPrepper questions".data,
   ("-- Certification: " ++ meta.certification_type).data]
  ++ (match meta.domain_name with
      | some d => [("-- Domain: " ++ d).data]
      | none => [])
  ++ [("-- Count: " ++ toString count).data, []]

/-- `formatQuestionsAsSQL(questions, metadata)`: header comments, one
INSERT statement per question each followed by a blank line, a footer
comment, all joined with `\n` (the JS `sqlStatements.join('\n')`).
`none` models the JS crash on an invalid answer index. -/
def formatQuestionsAsSQL (questions : List GeneratedQuestion)
    (meta : SQLMeta) : Option (List Char) :=
  (questions.mapM rowOfQuestion).map (fun rows =>
    List.intercalate ['\n']
      (sqlHeaderLines meta questions.length
        ++ rows.flatMap (fun r => [renderInsert r, []])
        ++ ["-- End of generated SQL statements".data]))

/-! ## Parse-back decoders for the serialized row

The decoders read the serialized fragments back under PostgreSQL
string-literal rules (`parseSqlLit`) and JSON string rules
(`parseJsonStrArr`), and recover the selected indices by locating each
stored correct-answer text in the decoded option list. -/

/-- Decode the option texts from the `options` literal fragment (which is
followed by `'::jsonb` in the statement). -/
def decodeRowOptions (r : SQLRow) : Option (List (List Char)) :=
  match parseSqlLit (r.optionsJson ++ '\'' :: "::jsonb".data) with
  | some (s, rest) =>
      if rest = "::jsonb".data then
        match parseJsonStrArr s with
        | some (a, r2) => if r2 = [] then some a else none
        | none => none
      else none
  | none => none

/-- Decode the selected answer indices: parse each stored element of the
`correct_answers` array literal, then look its text up in the decoded
option list. -/
def decodeRowIndices (r : SQLRow) : Option (List Nat) :=
  (decodeRowOptions r).bind (fun opts =>
    (r.correctAnswersTexts.mapM
        (fun e => (parseSqlLit (e ++ ['\'', ','])).map Prod.fst)).map
      (fun texts => texts.map (fun t => opts.indexOf t)))

/-! ## Batch orchestrator (`questionBatchGenerator.ts`,
`pollBatchStatus` lines 377-481 and `generateBatchQuestions` lines
484-1005)

The external HTTP backend is an oracle (`Backend`): each endpoint maps a
call index to an outcome — the fetch promise rejecting (or the JSON body
failing to parse), a non-ok HTTP response, or a parsed body. Wall-clock
time is an oracle `elapsedMs` giving the elapsed milliseconds observed at
the timeout check of each poll iteration. The model starts right after
the submission response produced a `batch_id` and no inline questions
(`submitStatus` is the submission body's `status` field), and returns the
outcome together with the ordered log of backend calls and sleeps, so
that "the results endpoint is never called" is a statement about the
log. The polling loop runs on fuel; exhausting fuel yields the
distinguished `outOfFuel` outcome (the JS loop would simply still be
running). -/

/-- A parsed JSON response body, with the fields the orchestrator reads. -/
structure ResponseBody where
  success : Bool
  questions : Option (List BackendQuestion)
  status : Option String
  processing_status : Option String
  error : Option String
deriving DecidableEq, Repr

/-- The outcome of one `fetch` (plus `response.json()`). -/
inductive FetchOutcome where
  | thrown (msg : String)
  | notOk (code : Nat) (errMsg : String)
  | ok (body : ResponseBody)
deriving DecidableEq, Repr

/-- The backend oracle: outcomes for the n-th call of each endpoint.
`notOk code errMsg` models `!response.ok` with
`errMsg = errorData.error || response.statusText`; `perItemResp` also
receives the requested item count. -/
structure Backend where
  statusResp : Nat → FetchOutcome
  resultsResp : Nat → FetchOutcome
  altResp : Nat → FetchOutcome
  recheckGet : Nat → FetchOutcome
  recheckPost : Nat → FetchOutcome
  perItemResp : Nat → Int → FetchOutcome
  elapsedMs : Nat → Nat

/-- One entry of the backend-interaction log. -/
inductive BackendCall where
  | statusCall (n : Nat)
  | resultsCall (k : Nat)
  | altCall (i : Nat)
  | recheckGetCall (r : Nat)
  | recheckPostCall (r : Nat)
  | perItemCall (count : Int)
  | sleep (seconds : Nat)
deriving DecidableEq, Repr

/-- The result of the polling loop. -/
inductive PollResult where
  | completed (body : ResponseBody)
  | thrown (msg : String)
  | outOfFuel
deriving DecidableEq, Repr

/-- The overall outcome of the post-submission orchestration. -/
inductive GenOutcome where
  | success (items : List GeneratedQuestion)
  | failure (msg : String)
  | outOfFuel
deriving DecidableEq, Repr

/-- The outer catch of `generateBatchQuestions` (lines 983-1004) wraps
every error before rethrowing. -/
def wrapApi (m : String) : String :=
  "Failed to generate batch questions from API: " ++ m

/-- The error thrown for a non-ok status response (lines 412-428): 404 and
500 get fixed texts, anything else carries `errorData.error ||
statusText`; every variant contains `failed`, so the loop's catch always
rethrows it. -/
def statusHttpErrMsg (code : Nat) (errMsg : String) : String :=
  "Batch status check failed: "
    ++ (if code = 404 then "Batch status endpoint not found (404)"
        else if code = 500 then "Batch status endpoint error (500)"
        else errMsg)

/-- The timeout error text (lines 461-463). -/
def pollTimeoutMsg (maxWaitTime : Nat) : String :=
  "Batch processing timeout: exceeded " ++ toString maxWaitTime ++ "s wait time"

/-- `pollBatchStatus` (lines 395-480), on fuel, polling from index `n`.
An OK body is checked for success-terminal, then failure-terminal
status, then (only then) the wall-clock timeout; otherwise the loop
sleeps and repeats. A thrown error is rethrown if its message contains
`timeout` or `failed`, else logged and retried after the same sleep —
with no timeout check on that path. A non-ok response throws a message
that always contains `failed`, so it always propagates. -/
def pollLoop (b : Backend) (pollInterval maxWaitTime : Nat) :
    Nat → Nat → PollResult × List BackendCall
  | 0, _ => (.outOfFuel, [])
  | fuel + 1, n =>
      match b.statusResp n with
      | .ok body =>
          let ps := body.processing_status.getD ""
          if ps = "ended" ∨ ps = "completed" then
            (.completed body, [.statusCall n])
          else if ps = "expired" ∨ ps = "cancelled" ∨ ps = "failed" then
            (.thrown ("Batch processing failed: " ++ ps), [.statusCall n])
          else if maxWaitTime * 1000 < b.elapsedMs n then
            (.thrown (pollTimeoutMsg maxWaitTime), [.statusCall n])
          else
            let r := pollLoop b pollInterval maxWaitTime fuel (n + 1)
            (r.1, .statusCall n :: .sleep pollInterval :: r.2)
      | .notOk code errMsg =>
          (.thrown (statusHttpErrMsg code errMsg), [.statusCall n])
      | .thrown msg =>
          if strIncludes msg "timeout" || strIncludes msg "failed" then
            (.thrown msg, [.statusCall n])
          else
            let r := pollLoop b pollInterval maxWaitTime fuel (n + 1)
            (r.1, .statusCall n :: .sleep pollInterval :: r.2)

/-- The error-message patterns of line 663-666 that route a polling error
into the recovery chain instead of rethrowing it. -/
def matchesRecoveryPatterns (msg : String) : Bool :=
  strIncludes msg "404" || strIncludes msg "Not Found"
    || strIncludes msg "500" || strIncludes msg "Failed to retrieve"
    || strIncludes msg "Batch status endpoint error"
    || strIncludes msg "Batch status endpoint not found"
    || strIncludes msg "Batch status check failed"

/-- The probe over the six alternative endpoint paths (lines 697-746): a
parsed body with a nonempty `questions` array returns; every other
outcome (thrown, non-ok, empty) moves to the next path. -/
def altLoop (b : Backend) (params : GenParams) :
    List Nat → Option (List GeneratedQuestion) × List BackendCall
  | [] => (none, [])
  | i :: rest =>
      match b.altResp i with
      | .ok body =>
          match body.questions with
          | some l =>
              if l ≠ [] then
                (some (mapQuestionsToGenerated params l), [.altCall i])
              else
                let r := altLoop b params rest
                (r.1, .altCall i :: r.2)
          | none =>
              let r := altLoop b params rest
              (r.1, .altCall i :: r.2)
      | _ =>
          let r := altLoop b params rest
          (r.1, .altCall i :: r.2)

/-- One submission-endpoint re-check (lines 759-803): GET, and on a
non-ok GET a POST whose failure leaves the non-ok GET response in place;
the final response is usable only if it is ok. -/
def recheckFinalResp (b : Backend) (r : Nat) :
    Option ResponseBody × List BackendCall :=
  match b.recheckGet r with
  | .thrown _ => (none, [.recheckGetCall r])
  | .ok body => (some body, [.recheckGetCall r])
  | .notOk _ _ =>
      match b.recheckPost r with
      | .ok pbody => (some pbody, [.recheckGetCall r, .recheckPostCall r])
      | _ => (none, [.recheckGetCall r, .recheckPostCall r])

/-- The `status === 'pending'` re-check retries (lines 749-837): three
rounds with growing sleeps; a parsed body with nonempty `questions`
returns, everything else proceeds to the next round. -/
def recheckLoop (b : Backend) (params : GenParams) (pollInterval : Nat) :
    List Nat → Option (List GeneratedQuestion) × List BackendCall
  | [] => (none, [])
  | r :: rest =>
      let f := recheckFinalResp b r
      let lg := .sleep (pollInterval * r) :: f.2
      match f.1 with
      | some body =>
          match body.questions with
          | some l =>
              if l ≠ [] then (some (mapQuestionsToGenerated params l), lg)
              else
                let nxt := recheckLoop b params pollInterval rest
                (nxt.1, lg ++ nxt.2)
          | none =>
              let nxt := recheckLoop b params pollInterval rest
              (nxt.1, lg ++ nxt.2)
      | none =>
          let nxt := recheckLoop b params pollInterval rest
          (nxt.1, lg ++ nxt.2)

/-- The degraded per-item generation loop (lines 844-900): `numCalls`
fixed up front, `currentCount = min(count - accumulated, 10)` per call; a
thrown or non-ok or malformed response aborts the whole generation with
the fallback error (wrapped by the outer catch); otherwise the mapped
items are accumulated. -/
def fallbackLoop (b : Backend) (params : GenParams) :
    Nat → Nat → List GeneratedQuestion → GenOutcome × List BackendCall
  | 0, _, acc => (.success acc, [])
  | n + 1, i, acc =>
      let currentCount : Int := min ((params.count : Int) - (acc.length : Int)) 10
      match b.perItemResp i currentCount with
      | .thrown m =>
          (.failure (wrapApi ("Batch generation failed and fallback also failed: " ++ m)),
            [.perItemCall currentCount])
      | .notOk code errMsg =>
          (.failure (wrapApi
              ("Batch generation failed and fallback also failed: Regular generator failed: "
                ++ toString code ++ " - " ++ errMsg)),
            [.perItemCall currentCount])
      | .ok body =>
          match body.questions with
          | some l =>
              if body.success then
                let r := fallbackLoop b params n (i + 1)
                    (acc ++ mapQuestionsToGenerated params l)
                (r.1, .perItemCall currentCount :: r.2)
              else
                (.failure (wrapApi
                    ("Batch generation failed and fallback also failed: Invalid response from regular question generator")),
                  [.perItemCall currentCount])
          | none =>
              (.failure (wrapApi
                  ("Batch generation failed and fallback also failed: Invalid response from regular question generator")),
                [.perItemCall currentCount])

/-- The tail of the recovery chain after the direct results attempt:
alternative paths, then (only for a `pending` submission status) the
re-check retries, then the per-item fallback with
`numCalls = ceil(count / 10)`. -/
def recoveryTail (b : Backend) (params : GenParams)
    (submitStatus : Option String) (pollInterval : Nat) :
    GenOutcome × List BackendCall :=
  let a := altLoop b params [0, 1, 2, 3, 4, 5]
  match a.1 with
  | some items => (.success items, a.2)
  | none =>
      let rc :=
        if submitStatus = some "pending" then
          recheckLoop b params pollInterval [1, 2, 3]
        else (none, [])
      match rc.1 with
      | some items => (.success items, a.2 ++ rc.2)
      | none =>
          let fb := fallbackLoop b params ((params.count + 9) / 10) 0 []
          (fb.1, a.2 ++ rc.2 ++ fb.2)

/-- The recovery chain (lines 662-901), entered when the polling error
matches the endpoint-error patterns: wait one interval, then fetch the
canonical results endpoint — this fetch is *not* wrapped in a try, so a
rejection propagates (wrapped) to the caller; an ok body with a nonempty
`questions` array returns the mapped items; otherwise the tail runs. -/
def runRecovery (b : Backend) (params : GenParams)
    (submitStatus : Option String) (pollInterval : Nat) (k : Nat) :
    GenOutcome × List BackendCall :=
  match b.resultsResp k with
  | .thrown m => (.failure (wrapApi m), [.sleep pollInterval, .resultsCall k])
  | .ok body =>
      match body.questions with
      | some l =>
          if l ≠ [] then
            (.success (mapQuestionsToGenerated params l),
              [.sleep pollInterval, .resultsCall k])
          else
            let t := recoveryTail b params submitStatus pollInterval
            (t.1, .sleep pollInterval :: .resultsCall k :: t.2)
      | none =>
          let t := recoveryTail b params submitStatus pollInterval
          (t.1, .sleep pollInterval :: .resultsCall k :: t.2)
  | .notOk _ _ =>
      let t := recoveryTail b params submitStatus pollInterval
      (t.1, .sleep pollInterval :: .resultsCall k :: t.2)

/-- Polling plus its aftermath (lines 651-962): on a success-terminal
poll, the canonical results retrieval (whose errors propagate wrapped,
and whose body must carry `success` and a `questions` array); on a
thrown poll error, either the recovery chain (pattern match) or the
wrapped rethrow. `k` indexes the next results-endpoint call. -/
def mainPoll (b : Backend) (params : GenParams) (submitStatus : Option String)
    (pollInterval maxWaitTime fuel k : Nat) : GenOutcome × List BackendCall :=
  let p := pollLoop b pollInterval maxWaitTime fuel 0
  match p.1 with
  | .outOfFuel => (.outOfFuel, p.2)
  | .completed _ =>
      (match b.resultsResp k with
       | .thrown m => (.failure (wrapApi m), p.2 ++ [.resultsCall k])
       | .notOk _ errMsg =>
           (.failure (wrapApi ("Failed to retrieve batch results: " ++ errMsg)),
             p.2 ++ [.resultsCall k])
       | .ok rbody =>
           match rbody.questions with
           | some l =>
               if rbody.success then
                 (.success (mapQuestionsToGenerated params l), p.2 ++ [.resultsCall k])
               else
                 (.failure (wrapApi "Invalid batch results: expected success flag and questions array"),
                   p.2 ++ [.resultsCall k])
           | none =>
               (.failure (wrapApi "Invalid batch results: expected success flag and questions array"),
                 p.2 ++ [.resultsCall k]))
  | .thrown msg =>
      if matchesRecoveryPatterns msg then
        let r := runRecovery b params submitStatus pollInterval k
        (r.1, p.2 ++ r.2)
      else (.failure (wrapApi msg), p.2)

/-- Continuation after a fruitless pre-poll direct results attempt. -/
def afterDirectResults (b : Backend) (params : GenParams)
    (submitStatus : Option String) (pollInterval maxWaitTime fuel : Nat) :
    GenOutcome × List BackendCall :=
  let m := mainPoll b params submitStatus pollInterval maxWaitTime fuel 1
  (m.1, .resultsCall 0 :: m.2)

/-- `generateBatchQuestions` from the point where the submission returned
a `batch_id` and no inline questions (lines 615-962, plus the outer
catch): if the submission body's `status` was success-terminal, one
direct results attempt (errors swallowed) precedes polling. -/
def generateBatchAfterSubmit (b : Backend) (params : GenParams)
    (submitStatus : Option String) (pollInterval maxWaitTime fuel : Nat) :
    GenOutcome × List BackendCall :=
  if submitStatus = some "completed" ∨ submitStatus = some "ended"
      ∨ submitStatus = some "success" then
    match b.resultsResp 0 with
    | .ok body =>
        match body.questions with
        | some l =>
            if l ≠ [] then
              (.success (mapQuestionsToGenerated params l), [.resultsCall 0])
            else afterDirectResults b params submitStatus pollInterval maxWaitTime fuel
        | none => afterDirectResults b params submitStatus pollInterval maxWaitTime fuel
    | .notOk _ _ => afterDirectResults b params submitStatus pollInterval maxWaitTime fuel
    | .thrown _ => afterDirectResults b params submitStatus pollInterval maxWaitTime fuel
  else mainPoll b params submitStatus pollInterval maxWaitTime fuel 0

/-! ## Concrete instances used in counterexamples and witnesses -/

/-- An all-empty row, used only to name a computed row in witnesses. -/
def emptyRow : SQLRow :=
  ⟨[], [], [], [], none, [], [], false, [], [], []⟩

/-- A mapped question whose two option texts are identical (`i` selects
which duplicate is the correct one). -/
def qDup (i : Nat) : GeneratedQuestion :=
  { question_text := "Q", options := ["dup", "dup"], correct_answers := [i],
    multiple_answers := "0", explanation := "E", domain := "D",
    category := "C", cognitive_level := "Application",
    skill_level := "Intermediate", tags := [], references := [] }

/-- Serialization metadata used by the concrete instances. -/
def metaCV : SQLMeta := ⟨"CV0-004", none⟩

/-- A single-answer question with distinct option texts, one of which
contains the SQL string-literal delimiter. -/
def qWitness : GeneratedQuestion :=
  { question_text := "Q", options := ["a", "b'c"], correct_answers := [1],
    multiple_answers := "0", explanation := "E", domain := "D",
    category := "C", cognitive_level := "Application",
    skill_level := "Intermediate", tags := [], references := [] }

/-- A multi-answer question. -/
def qWitnessMulti : GeneratedQuestion :=
  { qWitness with correct_answers := [0, 1], multiple_answers := "1" }

/-- A raw backend record with two correct answers. -/
def bqWitness : BackendQuestion :=
  ⟨"Q", ["a", "b"], [0, 1], "E", some "D", some "C", none,
    some "Application", some "Intermediate", some [], some []⟩

/-- Concrete request parameters. -/
def paramsWitness : GenParams :=
  ⟨"CV0-004", some "Cloud Security", .null, .null, 25⟩

/-- Concrete request parameters asking for 5 items. -/
def paramsSmall : GenParams := ⟨"CV0-004", none, .null, .null, 5⟩

/-- A sample backend record, tagged by an index. -/
def bqSample (k : Nat) : BackendQuestion :=
  ⟨"Q" ++ toString k, ["a", "b"], [0], "E", some "D", some "C", none,
    some "Application", some "Intermediate", some [], some []⟩

/-- A backend whose first status poll reports the failure-terminal status
`expired` and whose other endpoints are never expected to be reached. -/
def backendExpired : Backend :=
  { statusResp := fun _ => .ok ⟨false, none, none, some "expired", none⟩
    resultsResp := fun _ => .notOk 404 "Not Found"
    altResp := fun _ => .notOk 404 "Not Found"
    recheckGet := fun _ => .notOk 404 "Not Found"
    recheckPost := fun _ => .notOk 404 "Not Found"
    perItemResp := fun _ _ => .notOk 404 "Not Found"
    elapsedMs := fun _ => 0 }

/-- A backend whose status endpoint always raises a transport-level error
whose message matches neither `timeout` nor `failed`, while the observed
elapsed time is far past any wait budget. -/
def backendJsonErr : Backend :=
  { statusResp := fun _ => .thrown "Unexpected token < in JSON at position 0"
    resultsResp := fun _ => .notOk 404 "Not Found"
    altResp := fun _ => .notOk 404 "Not Found"
    recheckGet := fun _ => .notOk 404 "Not Found"
    recheckPost := fun _ => .notOk 404 "Not Found"
    perItemResp := fun _ _ => .notOk 404 "Not Found"
    elapsedMs := fun _ => 1000000000 }

/-- A backend whose status endpoint always returns HTTP 500 but whose
results endpoint returns a success body with three questions. -/
def backend500Results : Backend :=
  { statusResp := fun _ => .notOk 500 "Internal Server Error"
    resultsResp := fun _ =>
      .ok ⟨true, some [bqSample 1, bqSample 2, bqSample 3], none, none, none⟩
    altResp := fun _ => .notOk 404 "Not Found"
    recheckGet := fun _ => .notOk 404 "Not Found"
    recheckPost := fun _ => .notOk 404 "Not Found"
    perItemResp := fun _ _ => .notOk 404 "Not Found"
    elapsedMs := fun _ => 0 }

/-- A backend with status and results permanently unavailable whose
per-item generation endpoint returns exactly the requested number of
items on every call. -/
def backendPerItemOnly : Backend :=
  { statusResp := fun _ => .notOk 500 "Internal Server Error"
    resultsResp := fun _ => .notOk 404 "Not Found"
    altResp := fun _ => .notOk 404 "Not Found"
    recheckGet := fun _ => .notOk 404 "Not Found"
    recheckPost := fun _ => .notOk 404 "Not Found"
    perItemResp := fun i c =>
      .ok ⟨true, some (List.replicate c.toNat (bqSample i)), none, none, none⟩
    elapsedMs := fun _ => 0 }

/-- A backend where every endpoint fails: status 500, results and
alternatives 404, per-item generation 503. -/
def backendAllFail : Backend :=
  { statusResp := fun _ => .notOk 500 "Internal Server Error"
    resultsResp := fun _ => .notOk 404 "Not Found"
    altResp := fun _ => .notOk 404 "Not Found"
    recheckGet := fun _ => .notOk 404 "Not Found"
    recheckPost := fun _ => .notOk 404 "Not Found"
    perItemResp := fun _ _ => .notOk 503 "Service Unavailable"
    elapsedMs := fun _ => 0 }

/-! ## Theorems -/

/-- C2: for every domain processed by `analyzeCoverage` whose target count is
nonzero, with `percentage = observedCount / targetCount * 100`, the reported
status is `under` iff `percentage < 80`, `over` iff `percentage > 120`, and
`on-target` otherwise (both boundaries inclusive); in particular, with
`targetCount = 10` (weight 5 of a 200-question total), observed counts
`8` and `12` classify as `on-target`, `0` and `7` as `under`, and `13` as
`over`. -/
theorem analyzeCoverage_status_iff_thresholds
    (certType : String) (domains : List DomainInfo) (targetTotal : ℚ)
    (counts : List (String × ℚ)) (d : DomainInfo) (hd : d ∈ domains)
    (htc : (analyzeDomain targetTotal counts d).target_count ≠ 0) :
    (analyzeDomain targetTotal counts d
        ∈ (analyzeCoverage certType domains targetTotal counts).domains
      ∧ ((analyzeDomain targetTotal counts d).status = .under
          ↔ lookupCount counts d.name
              / ((analyzeDomain targetTotal counts d).target_count : ℚ) * 100 < 80)
      ∧ ((analyzeDomain targetTotal counts d).status = .over
          ↔ 120 < lookupCount counts d.name
              / ((analyzeDomain targetTotal counts d).target_count : ℚ) * 100)
      ∧ ((analyzeDomain targetTotal counts d).status = .onTarget
          ↔ (80 ≤ lookupCount counts d.name
                / ((analyzeDomain targetTotal counts d).target_count : ℚ) * 100
              ∧ lookupCount counts d.name
                / ((analyzeDomain targetTotal counts d).target_count : ℚ) * 100 ≤ 120)))
    ∧ ((analyzeDomain 200 [("X", 8)] ⟨"X", 5⟩).target_count = 10
        ∧ (analyzeDomain 200 [("X", 8)] ⟨"X", 5⟩).status = .onTarget)
    ∧ (analyzeDomain 200 [("X", 12)] ⟨"X", 5⟩).status = .onTarget
    ∧ (analyzeDomain 200 [("X", 0)] ⟨"X", 5⟩).status = .under
    ∧ (analyzeDomain 200 [("X", 7)] ⟨"X", 5⟩).status = .under
    ∧ (analyzeDomain 200 [("X", 13)] ⟨"X", 5⟩).status = .over := by
  have hcast : ((analyzeDomain targetTotal counts d).target_count : ℚ) ≠ 0 :=
    Int.cast_ne_zero.mpr htc
  constructor
  · refine ⟨List.mem_map_of_mem _ hd, ?_⟩
    simp only [analyzeDomain] at hcast ⊢
    rw [jsDiv, if_neg hcast]
    set x : ℚ := lookupCount counts d.name
        / ((jsRound (d.weight / 100 * targetTotal) : ℤ) : ℚ) * 100 with hx
    simp only [JsNum.mulPos, JsNum.ltc, JsNum.gtc, ← hx]
    by_cases h1 : x < 80
    · have h2 : ¬ 120 < x := by linarith
      simp [h1, h2]
    · by_cases h2 : 120 < x
      · simp [h1, h2]
      · simp [h1, h2]
        all_goals constructor <;> linarith
  · refine ⟨⟨?_, ?_⟩, ?_, ?_, ?_, ?_⟩ <;>
      norm_num [analyzeDomain, lookupCount, jsDiv, jsRound, JsNum.mulPos,
        JsNum.ltc, JsNum.gtc, JsNum.round, List.lookup]

/-- Witness for `analyzeCoverage_status_iff_thresholds` at a concrete input:
domain weight 5, total 200 (target 10), observed 8, status on-target. -/
theorem analyzeCoverage_status_iff_thresholds_witness :
    (analyzeDomain 200 [("X", 8)] ⟨"X", 5⟩).status = .onTarget := by
  have h := analyzeCoverage_status_iff_thresholds "CV0-004" [⟨"X", 5⟩] 200
    [("X", 8)] ⟨"X", 5⟩ (by simp)
    (by norm_num [analyzeDomain, lookupCount, jsDiv, jsRound, List.lookup])
  exact h.2.1.2

/-- C5 counterexample: for a category whose computed `targetCount` is `0`
(weight 20, total 1) and `observedCount = 0`, the code's unguarded JS
division makes the reported percentage `NaN` — not `0` as the claim
states, and NaN/Infinity do propagate into the report. -/
theorem analyzeCoverage_targetZero_counterexample :
    (analyzeDomain 1 [("D", 0)] ⟨"D", 20⟩).target_count = 0
    ∧ (analyzeDomain 1 [("D", 0)] ⟨"D", 20⟩).percentage = .nan
    ∧ ¬ (analyzeDomain 1 [("D", 0)] ⟨"D", 20⟩).percentage = .fin 0 := by
  have hnan : (analyzeDomain 1 [("D", 0)] ⟨"D", 20⟩).percentage = .nan := by
    norm_num [analyzeDomain, lookupCount, jsDiv, jsRound, JsNum.mulPos,
      JsNum.ltc, JsNum.gtc, JsNum.round, List.lookup]
  refine ⟨?_, hnan, ?_⟩
  · norm_num [analyzeDomain, lookupCount, jsRound, List.lookup]
  · rw [hnan]
    exact fun h => JsNum.noConfusion h

/-- C5 amended: for every category with `targetCount = 0`, `analyzeCoverage`
reports percentage `NaN` (classified `on-target`) when `observedCount = 0`,
and percentage `Infinity` classified `over` when `observedCount > 0`; the
saturated-`over` half of the claim holds, but the percentage is NaN resp.
Infinity rather than `0` resp. a finite saturation — there is no explicit
division-by-zero guard in the code. -/
theorem analyzeCoverage_targetZero_amended
    (targetTotal : ℚ) (counts : List (String × ℚ)) (d : DomainInfo)
    (htc : (analyzeDomain targetTotal counts d).target_count = 0) :
    (lookupCount counts d.name = 0
      → (analyzeDomain targetTotal counts d).percentage = .nan
        ∧ (analyzeDomain targetTotal counts d).status = .onTarget)
    ∧ (0 < lookupCount counts d.name
      → (analyzeDomain targetTotal counts d).percentage = .inf
        ∧ (analyzeDomain targetTotal counts d).status = .over) := by
  simp only [analyzeDomain] at htc ⊢
  rw [htc]
  constructor
  · intro h0
    simp [jsDiv, h0, JsNum.mulPos, JsNum.ltc, JsNum.gtc, JsNum.round]
  · intro hpos
    simp [jsDiv, ne_of_gt hpos, JsNum.mulPos, JsNum.ltc, JsNum.gtc,
      JsNum.round, hpos]

/-- Witness for `analyzeCoverage_targetZero_amended`: weight 20, total 1
(target 0), observed 3: percentage Infinity, status over. -/
theorem analyzeCoverage_targetZero_amended_witness :
    (analyzeDomain 1 [("D", 3)] ⟨"D", 20⟩).percentage = .inf
    ∧ (analyzeDomain 1 [("D", 3)] ⟨"D", 20⟩).status = .over := by
  have h := analyzeCoverage_targetZero_amended 1 [("D", 3)] ⟨"D", 20⟩
    (by norm_num [analyzeDomain, lookupCount, jsRound, List.lookup])
  exact h.2 (by norm_num [lookupCount, List.lookup])

/-- Cutting the last five characters off `x ++ y` recovers `x` whenever
`y` has exactly five characters. -/
theorem sliceDropLast5_append (x y : List Char) (h : y.length = 5) :
    sliceDropLast5 (x ++ y) = x := by
  simp only [sliceDropLast5, List.length_append, h,
    Nat.add_sub_cancel]
  exact List.take_left x y

/-- The filename timestamp does not depend on the milliseconds field:
`slice(0, -5)` cuts exactly the transformed `.mmmZ` suffix. -/
theorem filenameTimestamp_ms_irrelevant (y mo d h mi s ms1 ms2 : Nat) :
    filenameTimestamp ⟨y, mo, d, h, mi, s, ms1⟩
      = filenameTimestamp ⟨y, mo, d, h, mi, s, ms2⟩ := by
  unfold filenameTimestamp toISOChars replaceColonDot
  rw [List.map_append, sliceDropLast5_append _ _ (by simp [pad3]),
    List.map_append, sliceDropLast5_append _ _ (by simp [pad3])]
  simp [isoDatePrefix]

/-- C3 counterexample: two persist-step invocations with identical request
metadata and item count in the same wall-clock second (differing only in
milliseconds) generate the *same* filename, so the second
`fs.writeFile` overwrites the first — the claimed distinctness fails. -/
theorem generateFilename_sameSecond_counterexample :
    generateFilename "CV0-004".data (some "Cloud Security".data) 25
        ⟨2026, 10, 11, 12, 0, 0, 100⟩
      = generateFilename "CV0-004".data (some "Cloud Security".data) 25
        ⟨2026, 10, 11, 12, 0, 0, 900⟩
    ∧ (⟨2026, 10, 11, 12, 0, 0, 100⟩ : JsDate) ≠ ⟨2026, 10, 11, 12, 0, 0, 900⟩ := by
  constructor
  · unfold generateFilename
    rw [filenameTimestamp_ms_irrelevant 2026 10 11 12 0 0 100 900]
  · intro h
    exact absurd (congrArg JsDate.ms h) (by decide)

/-- C3 amended: the generated filename is a function of the request
metadata, the item count, and the timestamp truncated to whole seconds;
two invocations within the same wall-clock second (identical metadata
and count, any milliseconds) therefore produce identical — not distinct —
filenames, and the second write overwrites the first. Distinct filenames
are only guaranteed when the second-level timestamps differ. -/
theorem generateFilename_sameSecond_amended
    (certType : List Char) (domainName : Option (List Char)) (count : Nat)
    (y mo d h mi s ms1 ms2 : Nat) :
    generateFilename certType domainName count ⟨y, mo, d, h, mi, s, ms1⟩
      = generateFilename certType domainName count ⟨y, mo, d, h, mi, s, ms2⟩ := by
  unfold generateFilename
  rw [filenameTimestamp_ms_irrelevant y mo d h mi s ms1 ms2]

/-- The SQL escape of a text, followed by the closing quote and a context
not beginning with a quote, parses back to exactly that text under
string-literal rules. -/
theorem parseSqlLit_escQ (s : List Char) : ∀ rest : List Char,
    rest.head? ≠ some '\'' →
    parseSqlLit (escQ s ++ '\'' :: rest) = some (s, rest) := by
  induction s with
  | nil =>
      intro rest hr
      cases rest with
      | nil => rfl
      | cons c t =>
          have hc : ¬ c = '\'' := by simpa using hr
          simp [escQ, parseSqlLit, hc]
  | cons c s ih =>
      intro rest hr
      by_cases hc : c = '\''
      · subst hc
        simp [escQ, parseSqlLit, ih rest hr]
      · have he : escQ (c :: s) = c :: escQ s := by simp [escQ, hc]
        rw [he, List.cons_append, parseSqlLit.eq_def]
        simp [hc, ih rest hr]

/-- Encoding then decoding a hex digit is the identity below 16. -/
theorem hexVal_jsonHexDigit (n : Nat) (h : n < 16) :
    hexVal (jsonHexDigit n) = some n := by
  interval_cases n <;> decide

/-- One JSON-escaped character parses back to itself, whatever follows. -/
theorem parseJsonStrAux_escChar (c : Char) (l : List Char) :
    parseJsonStrAux (jsonEscChar c ++ l)
      = (parseJsonStrAux l).map (fun p => (c :: p.1, p.2)) := by
  unfold jsonEscChar
  split_ifs with h1 h2 h3 h4 h5 h6 h7 h8
  · subst h1; rfl
  · subst h2; rfl
  · subst h3; rfl
  · subst h4; rfl
  · subst h5; rfl
  · subst h6; rfl
  · subst h7; rfl
  · -- the \u00XX escape of a control character
    have hdiv : c.toNat / 16 < 16 := by omega
    have hmod : c.toNat % 16 < 16 := by omega
    have hchar : Char.ofNat (c.toNat / 16 * 16 + c.toNat % 16) = c := by
      rw [show c.toNat / 16 * 16 + c.toNat % 16 = c.toNat by omega, Char.ofNat_toNat]
    have h0 : hexVal '0' = some 0 := by decide
    simp [parseJsonStrAux, hexVal_jsonHexDigit _ hdiv, hexVal_jsonHexDigit _ hmod,
      h0, hchar]
  · -- an ordinary character is emitted verbatim
    rw [List.cons_append, List.nil_append, parseJsonStrAux.eq_def]
    simp [h1, h2]

/-- A fully escaped character run parses back to itself, stopping at the
closing quote. -/
theorem parseJsonStrAux_flatMap (cs : List Char) : ∀ rest : List Char,
    parseJsonStrAux (cs.flatMap jsonEscChar ++ '"' :: rest) = some (cs, rest) := by
  induction cs with
  | nil =>
      intro rest
      simp only [List.flatMap_nil, List.nil_append]
      rw [parseJsonStrAux.eq_def]
      simp
  | cons c cs ih =>
      intro rest
      rw [List.flatMap_cons, List.append_assoc, parseJsonStrAux_escChar, ih]
      rfl

/-- A rendered JSON string is at least two characters (its quotes). -/
theorem two_le_jsonStr_length (s : String) : 2 ≤ (jsonStr s).length := by
  simp [jsonStr]

/-- A nonempty rendered element list has at least one character per
element. -/
theorem length_le_jsonArrCore_length (ss : List String) :
    ss.length ≤ (jsonArrCore ss).length := by
  induction ss with
  | nil => simp [jsonArrCore]
  | cons s t ih =>
      cases t with
      | nil =>
          have := two_le_jsonStr_length s
          simp [jsonArrCore]
          omega
      | cons s2 t2 =>
          have := two_le_jsonStr_length s
          simp only [jsonArrCore, List.length_append, List.length_cons] at ih ⊢
          omega

/-- Parsing the rendered elements of a nonempty string array recovers the
element texts, given at least one unit of fuel per element. -/
theorem parseJsonElems_jsonArrCore (ss : List String) (hne : ss ≠ []) :
    ∀ fuel, ss.length ≤ fuel → ∀ rest : List Char,
    parseJsonElems fuel (jsonArrCore ss ++ ']' :: rest)
      = some (ss.map String.data, rest) := by
  induction ss with
  | nil => exact absurd rfl hne
  | cons s t ih =>
      intro fuel hf rest
      obtain ⟨f, rfl⟩ : ∃ f, fuel = f + 1 :=
        ⟨fuel - 1, by simp at hf; omega⟩
      cases t with
      | nil =>
          show parseJsonElems (f + 1) (jsonStr s ++ ']' :: rest)
            = some ([s.data], rest)
          rw [jsonStr]
          simp only [List.cons_append, List.append_assoc, List.singleton_append]
          rw [parseJsonElems, parseJsonStrAux_flatMap]
          simp
      | cons s2 t2 =>
          show parseJsonElems (f + 1)
              ((jsonStr s ++ ',' :: jsonArrCore (s2 :: t2)) ++ ']' :: rest)
            = some (s.data :: (s2 :: t2).map String.data, rest)
          rw [jsonStr]
          simp only [List.cons_append, List.append_assoc, List.singleton_append,
            List.nil_append]
          rw [parseJsonElems, parseJsonStrAux_flatMap]
          simp only [List.nil_append]
          rw [ih (by simp) f (by simp at hf ⊢; omega) rest]

/-- Parsing a rendered JSON string array recovers the element texts,
whatever follows the array. -/
theorem parseJsonStrArr_jsonArr (ss : List String) (rest : List Char) :
    parseJsonStrArr (jsonArr ss ++ rest) = some (ss.map String.data, rest) := by
  cases ss with
  | nil => rfl
  | cons s t =>
      have hform : jsonArr (s :: t) ++ rest
          = '[' :: (jsonArrCore (s :: t) ++ ']' :: rest) := by
        simp [jsonArr]
      obtain ⟨j, hj⟩ : ∃ j, jsonArrCore (s :: t) ++ ']' :: rest = '"' :: j := by
        cases t <;> simp [jsonArrCore, jsonStr]
      have hlen : (s :: t).length ≤ (jsonArrCore (s :: t) ++ ']' :: rest).length :=
        calc (s :: t).length ≤ (jsonArrCore (s :: t)).length :=
              length_le_jsonArrCore_length (s :: t)
          _ ≤ (jsonArrCore (s :: t) ++ ']' :: rest).length := by
              simp
      have hgoal : parseJsonElems ('"' :: j).length ('"' :: j)
          = some ((s :: t).map String.data, rest) := by
        rw [← hj]
        exact parseJsonElems_jsonArrCore (s :: t) (by simp) _ hlen rest
      rw [hform, parseJsonStrArr, hj]
      · exact hgoal
      · intro r1 hbad
        rw [hj] at hbad
        simp at hbad

/-- `mapM` over `Option` is the plain map when every element succeeds. -/
theorem mapM_eq_map_of_some {α β : Type} (f : α → Option β) (g : α → β) :
    ∀ l : List α, (∀ x ∈ l, f x = some (g x)) → l.mapM f = some (l.map g) := by
  intro l
  induction l with
  | nil => intro _; rfl
  | cons a t ih =>
      intro h
      rw [List.mapM_cons, h a (by simp), ih (fun x hx => h x (by simp [hx]))]
      rfl

/-- `String.data` is injective. -/
theorem stringData_injective : Function.Injective String.data := by
  intro a b h
  cases a; cases b
  exact congrArg String.mk h

/-- Whenever `rowOfQuestion` succeeds, the `options` fragment is the SQL
escape of the JSON rendering of the option list, and the scalar
`correct_answer` is `NULL` exactly for a multi-answer item. -/
theorem rowOfQuestion_optionsJson_correctAnswer (q : GeneratedQuestion)
    (r : SQLRow) (hr : rowOfQuestion q = some r) :
    r.optionsJson = escQ (jsonArr q.options)
    ∧ (r.correctAnswer = none ↔ 1 < q.correct_answers.length) := by
  unfold rowOfQuestion at hr
  cases hm : q.correct_answers.mapM
      (fun i => (q.options.get? i).map (fun s => escQ s.data)) with
  | none => rw [hm] at hr; simp at hr
  | some texts =>
      rw [hm] at hr
      by_cases hmul : 1 < q.correct_answers.length
      · rw [if_pos hmul] at hr
        cases hr
        simp [hmul]
      · rw [if_neg hmul] at hr
        cases h0 : q.correct_answers.get? 0 with
        | none => rw [h0] at hr; simp at hr
        | some i0 =>
            rw [h0] at hr
            dsimp only at hr
            cases ht : q.options.get? i0 with
            | none => rw [ht] at hr; simp at hr
            | some t0 =>
                rw [ht] at hr
                cases hr
                simp [hmul]

/-- Whenever `rowOfQuestion` succeeds on in-range answer indices, the
stored `correct_answers` array elements are the escaped option texts
selected by the indices. -/
theorem rowOfQuestion_answerTexts (q : GeneratedQuestion) (r : SQLRow)
    (hr : rowOfQuestion q = some r)
    (hvalid : ∀ i ∈ q.correct_answers, i < q.options.length) :
    r.correctAnswersTexts
      = q.correct_answers.map (fun i => escQ ((q.options.getD i "").data)) := by
  have hm : q.correct_answers.mapM
      (fun i => (q.options.get? i).map (fun s => escQ s.data))
      = some (q.correct_answers.map (fun i => escQ ((q.options.getD i "").data))) := by
    apply mapM_eq_map_of_some
    intro i hi
    have hlt := hvalid i hi
    rw [List.get?_eq_getElem?, List.getElem?_eq_getElem hlt]
    rw [show q.options.getD i "" = q.options[i] by
      rw [List.getD_eq_getElem?_getD, List.getElem?_eq_getElem hlt]; rfl]
    rfl
  unfold rowOfQuestion at hr
  rw [hm] at hr
  by_cases hmul : 1 < q.correct_answers.length
  · rw [if_pos hmul] at hr
    cases hr
    rfl
  · rw [if_neg hmul] at hr
    cases h0 : q.correct_answers.get? 0 with
    | none => rw [h0] at hr; simp at hr
    | some i0 =>
        rw [h0] at hr
        dsimp only at hr
        cases ht : q.options.get? i0 with
        | none => rw [ht] at hr; simp at hr
        | some t0 =>
            rw [ht] at hr
            cases hr
            rfl

/-- Decoding the serialized `options` fragment of a produced row recovers
the original option texts. -/
theorem decodeRowOptions_spec (q : GeneratedQuestion) (r : SQLRow)
    (hr : rowOfQuestion q = some r) :
    decodeRowOptions r = some (q.options.map String.data) := by
  have hopt := (rowOfQuestion_optionsJson_correctAnswer q r hr).1
  unfold decodeRowOptions
  rw [hopt, parseSqlLit_escQ _ _ (by decide)]
  dsimp only
  rw [if_pos rfl]
  have harr := parseJsonStrArr_jsonArr q.options []
  rw [List.append_nil] at harr
  rw [harr]
  dsimp only
  rw [if_pos rfl]

/-- `mapM` over a mapped list is a plain map when every mapped element
succeeds. -/
theorem mapM_map_eq_map_of_some {a b c : Type} (f : b → Option c)
    (fe : a → b) (h : a → c) :
    ∀ l : List a, (∀ x ∈ l, f (fe x) = some (h x)) →
    (l.map fe).mapM f = some (l.map h) := by
  intro l
  induction l with
  | nil => intro _; rfl
  | cons x t ih =>
      intro hx
      rw [List.map_cons, List.mapM_cons, hx x (by simp),
        ih (fun y hy => hx y (by simp [hy]))]
      rfl

/-- In a duplicate-free list, looking up the index of the `i`-th element
recovers `i` (for any lawful boolean equality). -/
theorem indexOf_getElem_nodup {α : Type} [BEq α] [LawfulBEq α] :
    ∀ (l : List α), l.Nodup → ∀ (i : Nat) (h : i < l.length),
      l.indexOf l[i] = i := by
  intro l
  induction l with
  | nil => intro _ i h; simp at h
  | cons a t ih =>
      intro hnd i h
      cases i with
      | zero => simp [List.indexOf, List.findIdx_cons]
      | succ n =>
          have hn : n < t.length := by simpa using h
          have hmem : t[n] ∈ t := List.getElem_mem hn
          have hna : ¬ a = t[n] := by
            intro hEq
            exact (List.nodup_cons.mp hnd).1 (hEq ▸ hmem)
          have hbeq : (a == t[n]) = false := by
            simpa using hna
          simp only [List.getElem_cons_succ]
          simp only [List.indexOf, List.findIdx_cons, hbeq, cond_false]
          have := ih (List.nodup_cons.mp hnd).2 n hn
          simp only [List.indexOf] at this
          omega

/-- Decoding the serialized `correct_answers` array of a produced row,
when the option texts are pairwise distinct and the indices in range,
recovers exactly the original selected indices. -/
theorem decodeRowIndices_spec (q : GeneratedQuestion) (r : SQLRow)
    (hr : rowOfQuestion q = some r)
    (hvalid : ∀ i ∈ q.correct_answers, i < q.options.length)
    (hnodup : q.options.Nodup) :
    decodeRowIndices r = some q.correct_answers := by
  unfold decodeRowIndices
  rw [decodeRowOptions_spec q r hr, rowOfQuestion_answerTexts q r hr hvalid]
  have hmm : (q.correct_answers.map
        (fun i => escQ ((q.options.getD i "").data))).mapM
      (fun e => (parseSqlLit (e ++ ['\'', ','])).map Prod.fst)
      = some (q.correct_answers.map (fun i => (q.options.getD i "").data)) := by
    apply mapM_map_eq_map_of_some
    intro i _
    rw [show (['\'', ','] : List Char) = '\'' :: [','] from rfl,
      parseSqlLit_escQ _ _ (by decide)]
    rfl
  rw [Option.some_bind, hmm]
  simp only [Option.map_some', Option.some.injEq, List.map_map]
  have hmap : q.correct_answers.map
      ((fun t => (q.options.map String.data).indexOf t)
        ∘ (fun i => (q.options.getD i "").data))
      = q.correct_answers.map (fun i => i) := by
    apply List.map_congr_left
    intro i hi
    have hlt := hvalid i hi
    have hgd : q.options.getD i "" = q.options[i] := by
      rw [List.getD_eq_getElem?_getD, List.getElem?_eq_getElem hlt]
      rfl
    have hmnd : (q.options.map String.data).Nodup :=
      hnodup.map stringData_injective
    have hlen : i < (q.options.map String.data).length := by simpa using hlt
    have hgetm : (q.options.map String.data)[i] = q.options[i].data :=
      List.getElem_map ..
    simp only [Function.comp_apply, hgd]
    rw [← hgetm]
    exact indexOf_getElem_nodup _ hmnd i hlen
  rw [hmap]
  simp

/-- C9 amended: the serialization of `formatQuestionsAsSQL`, parsed back
under PostgreSQL string-literal rules and JSON string rules, reproduces
the original option texts always, and the selected correct-answer index
set whenever the item's option texts are pairwise distinct; the index set
is stored only through the answer *texts*, so items with duplicate option
texts (see the counterexample) are excluded. -/
theorem formatQuestionsAsSQL_roundTrip_amended
    (q : GeneratedQuestion) (r : SQLRow)
    (hr : rowOfQuestion q = some r)
    (hnodup : q.options.Nodup)
    (hvalid : ∀ i ∈ q.correct_answers, i < q.options.length)
    (meta : SQLMeta) :
    formatQuestionsAsSQL [q] meta
      = some (List.intercalate ['\n']
          (sqlHeaderLines meta 1
            ++ [renderInsert r, []]
            ++ ["-- End of generated SQL statements".data]))
    ∧ decodeRowOptions r = some (q.options.map String.data)
    ∧ decodeRowIndices r = some q.correct_answers := by
  refine ⟨?_, decodeRowOptions_spec q r hr,
    decodeRowIndices_spec q r hr hvalid hnodup⟩
  unfold formatQuestionsAsSQL
  rw [show ([q].mapM rowOfQuestion) = some [r] by
    rw [List.mapM_cons, hr]; rfl]
  rfl

/-- Witness for `formatQuestionsAsSQL_roundTrip_amended` at a concrete
single-answer item whose second option text contains a single quote. -/
theorem formatQuestionsAsSQL_roundTrip_amended_witness :
    decodeRowOptions ((rowOfQuestion qWitness).getD emptyRow)
      = some (["a", "b'c"].map String.data)
    ∧ decodeRowIndices ((rowOfQuestion qWitness).getD emptyRow) = some [1] := by
  have h := formatQuestionsAsSQL_roundTrip_amended qWitness
    ((rowOfQuestion qWitness).getD emptyRow) (by decide) (by decide)
    (by decide) metaCV
  exact ⟨h.2.1, h.2.2⟩

set_option maxRecDepth 100000 in
/-- C9 counterexample: two items that differ only in which of two
*identical* option texts is the correct answer serialize to the very same
SQL text, so no parse of the serialized form can reproduce both items'
selected-index sets — the round-trip claim fails for items with duplicate
option texts. -/
theorem formatQuestionsAsSQL_duplicateOptions_counterexample :
    formatQuestionsAsSQL [qDup 0] metaCV = formatQuestionsAsSQL [qDup 1] metaCV
    ∧ (qDup 0).correct_answers.toFinset ≠ (qDup 1).correct_answers.toFinset
    ∧ ¬ ∃ parse : Option (List Char) → Finset Nat,
        (parse (formatQuestionsAsSQL [qDup 0] metaCV)
            = (qDup 0).correct_answers.toFinset
          ∧ parse (formatQuestionsAsSQL [qDup 1] metaCV)
            = (qDup 1).correct_answers.toFinset) := by
  have heq : formatQuestionsAsSQL [qDup 0] metaCV
      = formatQuestionsAsSQL [qDup 1] metaCV := by decide
  refine ⟨heq, by decide, ?_⟩
  rintro ⟨p, h0, h1⟩
  rw [heq] at h0
  exact absurd (h0.symm.trans h1) (by decide)

/-- C10: a mapped item's `multiple_answers` flag is `"1"` iff its
`correct_answers` array has more than one element (else `"0"`), and the
serialized scalar `correct_answer` column is `NULL` iff the item has more
than one correct answer. -/
theorem multipleAnswers_flag_and_null_scalar
    (params : GenParams) (bq : BackendQuestion)
    (q : GeneratedQuestion) (r : SQLRow) (hr : rowOfQuestion q = some r) :
    ((mapQuestionToGenerated params bq).multiple_answers = "1"
      ↔ 1 < bq.correct_answers.length)
    ∧ ((mapQuestionToGenerated params bq).multiple_answers = "0"
      ↔ ¬ 1 < bq.correct_answers.length)
    ∧ (r.correctAnswer = none ↔ 1 < q.correct_answers.length) := by
  refine ⟨?_, ?_, (rowOfQuestion_optionsJson_correctAnswer q r hr).2⟩
  · unfold mapQuestionToGenerated
    by_cases h : 1 < bq.correct_answers.length <;> simp [h]
  · unfold mapQuestionToGenerated
    by_cases h : 1 < bq.correct_answers.length <;> simp [h]

/-- Witness for `multipleAnswers_flag_and_null_scalar` at a two-answer
record and a two-answer serialized item. -/
theorem multipleAnswers_flag_and_null_scalar_witness :
    (mapQuestionToGenerated paramsWitness bqWitness).multiple_answers = "1"
    ∧ ((rowOfQuestion qWitnessMulti).getD emptyRow).correctAnswer = none := by
  have h := multipleAnswers_flag_and_null_scalar paramsWitness bqWitness
    qWitnessMulti ((rowOfQuestion qWitnessMulti).getD emptyRow) (by decide)
  exact ⟨h.1.mpr (by decide), h.2.2.mpr (by decide)⟩

/-- A failure-terminal status on poll `n` aborts that poll immediately
with the status in the error message. -/
theorem pollLoop_failureTerminal (b : Backend)
    (pollInterval maxWaitTime fuel n : Nat) (body : ResponseBody) (st : String)
    (hb : b.statusResp n = .ok body)
    (hps : body.processing_status = some st)
    (hst : st = "expired" ∨ st = "cancelled" ∨ st = "failed") :
    pollLoop b pollInterval maxWaitTime (fuel + 1) n
      = (.thrown ("Batch processing failed: " ++ st), [.statusCall n]) := by
  rcases hst with rfl | rfl | rfl <;>
    simp [pollLoop, hb, hps]

/-- A non-ok HTTP status response aborts that poll immediately: the
thrown message contains `failed`, so the catch rethrows it. -/
theorem pollLoop_notOk (b : Backend)
    (pollInterval maxWaitTime fuel n : Nat) (code : Nat) (errMsg : String)
    (hb : b.statusResp n = .notOk code errMsg) :
    pollLoop b pollInterval maxWaitTime (fuel + 1) n
      = (.thrown (statusHttpErrMsg code errMsg), [.statusCall n]) := by
  simp [pollLoop, hb]

/-- C1: when the submission status was not success-terminal (so no
pre-poll retrieval happens) and the first status poll reports a
failure-terminal status (`expired`, `cancelled` or `failed`), the
orchestrator aborts at once with a wrapped `Batch processing failed`
error carrying the backend's status, and the interaction log is the
single status call — in particular the results endpoint is never called
for the job, and no fallback or per-item call happens. -/
theorem generateBatch_abortsOnFailureTerminal (b : Backend)
    (params : GenParams) (submitStatus : Option String)
    (pollInterval maxWaitTime fuel : Nat) (body : ResponseBody) (st : String)
    (hs : ¬ (submitStatus = some "completed" ∨ submitStatus = some "ended"
        ∨ submitStatus = some "success"))
    (hb : b.statusResp 0 = .ok body)
    (hps : body.processing_status = some st)
    (hst : st = "expired" ∨ st = "cancelled" ∨ st = "failed") :
    generateBatchAfterSubmit b params submitStatus pollInterval maxWaitTime (fuel + 1)
      = (.failure (wrapApi ("Batch processing failed: " ++ st)), [.statusCall 0]) := by
  have hp := pollLoop_failureTerminal b pollInterval maxWaitTime fuel 0 body st hb hps hst
  unfold generateBatchAfterSubmit
  rw [if_neg hs]
  unfold mainPoll
  rw [hp]
  have hm : matchesRecoveryPatterns ("Batch processing failed: " ++ st) = false := by
    rcases hst with rfl | rfl | rfl <;> decide
  simp [hm]

/-- Witness for `generateBatch_abortsOnFailureTerminal`: the concrete
`backendExpired` whose first poll returns `expired`. -/
theorem generateBatch_abortsOnFailureTerminal_witness :
    generateBatchAfterSubmit backendExpired paramsWitness none 30 3600 5
      = (.failure (wrapApi "Batch processing failed: expired"), [.statusCall 0]) := by
  have h := generateBatch_abortsOnFailureTerminal backendExpired paramsWitness
    none 30 3600 4 ⟨false, none, none, some "expired", none⟩ "expired"
    (by simp) rfl rfl (Or.inl rfl)
  exact h

/-- C4 (code bug): when every status poll raises a transport-level error
whose message is not a recognized failure or timeout (here a JSON parse
error), the error is retried after the same sleep interval — but the
elapsed-time check of `pollBatchStatus` is only reached after a
*successful* status fetch with a non-terminal status, so the loop never
terminates with a `Timeout` error even though the observed elapsed time
(10^9 ms) is far beyond `maxWaitSeconds = 3600`: for every amount of
fuel the loop is still running, and each iteration is exactly one status
call followed by the same 30-second sleep. -/
theorem pollLoop_transportErrors_never_timeout :
    (∀ n, 3600 * 1000 < backendJsonErr.elapsedMs n)
    ∧ (∀ fuel n, (pollLoop backendJsonErr 30 3600 fuel n).1 = .outOfFuel)
    ∧ (∀ fuel n, (pollLoop backendJsonErr 30 3600 (fuel + 1) n).2
        = .statusCall n :: .sleep 30
            :: (pollLoop backendJsonErr 30 3600 fuel (n + 1)).2) := by
  have hstep : ∀ fuel n, pollLoop backendJsonErr 30 3600 (fuel + 1) n
      = ((pollLoop backendJsonErr 30 3600 fuel (n + 1)).1,
         .statusCall n :: .sleep 30
           :: (pollLoop backendJsonErr 30 3600 fuel (n + 1)).2) := by
    intro fuel n
    rw [pollLoop]
    rw [show backendJsonErr.statusResp n
      = .thrown "Unexpected token < in JSON at position 0" from rfl]
    dsimp only
    rw [if_neg (by decide)]
  refine ⟨fun n => by show (3600 * 1000 : Nat) < 1000000000; norm_num, ?_, ?_⟩
  · intro fuel
    induction fuel with
    | zero => intro n; rfl
    | succ f ih =>
        intro n
        rw [hstep f n]
        exact ih (n + 1)
  · intro fuel n
    rw [hstep fuel n]

/-- C6: when the status endpoint returns HTTP 500 on every call but the
results endpoint returns a success body with a nonempty questions array
(here 3 items), the recovery fallback still returns exactly those items:
the orchestrator succeeds with the mapped questions after one status
call, one interval sleep and one results call. -/
theorem generateBatch_status500_results_fallback (b : Backend)
    (params : GenParams) (submitStatus : Option String)
    (pollInterval maxWaitTime fuel : Nat) (qs : List BackendQuestion)
    (hs : ¬ (submitStatus = some "completed" ∨ submitStatus = some "ended"
        ∨ submitStatus = some "success"))
    (hstat : b.statusResp 0 = .notOk 500 "Internal Server Error")
    (hres : b.resultsResp 0 = .ok ⟨true, some qs, none, none, none⟩)
    (hlen : qs.length = 3) :
    generateBatchAfterSubmit b params submitStatus pollInterval maxWaitTime (fuel + 1)
      = (.success (mapQuestionsToGenerated params qs),
         [.statusCall 0, .sleep pollInterval, .resultsCall 0])
    ∧ (mapQuestionsToGenerated params qs).length = 3 := by
  constructor
  · have hp := pollLoop_notOk b pollInterval maxWaitTime fuel 0 500
      "Internal Server Error" hstat
    have hne : qs ≠ [] := by
      intro h
      rw [h] at hlen
      simp at hlen
    unfold generateBatchAfterSubmit
    rw [if_neg hs]
    unfold mainPoll
    rw [hp]
    dsimp only
    rw [if_pos (by decide :
      matchesRecoveryPatterns (statusHttpErrMsg 500 "Internal Server Error") = true)]
    unfold runRecovery
    rw [hres]
    dsimp only
    rw [if_pos hne]
    rfl
  · simp [mapQuestionsToGenerated, hlen]

/-- Witness for `generateBatch_status500_results_fallback` at the
concrete `backend500Results`. -/
theorem generateBatch_status500_results_fallback_witness :
    generateBatchAfterSubmit backend500Results paramsWitness none 30 3600 5
      = (.success (mapQuestionsToGenerated paramsWitness
          [bqSample 1, bqSample 2, bqSample 3]),
         [.statusCall 0, .sleep 30, .resultsCall 0])
    ∧ (mapQuestionsToGenerated paramsWitness
        [bqSample 1, bqSample 2, bqSample 3]).length = 3 := by
  have h := generateBatch_status500_results_fallback backend500Results
    paramsWitness none 30 3600 4 [bqSample 1, bqSample 2, bqSample 3]
    (by simp) rfl rfl rfl
  exact h

/-- One successful per-item fallback call appends its mapped items and
logs the requested count. -/
theorem fallbackLoop_step_ok (b : Backend) (params : GenParams)
    (n i : Nat) (acc : List GeneratedQuestion) (l : List BackendQuestion)
    (cc : Int)
    (hcc : min ((params.count : Int) - (acc.length : Int)) 10 = cc)
    (hresp : b.perItemResp i cc = .ok ⟨true, some l, none, none, none⟩) :
    fallbackLoop b params (n + 1) i acc
      = ((fallbackLoop b params n (i + 1)
            (acc ++ mapQuestionsToGenerated params l)).1,
         .perItemCall cc
           :: (fallbackLoop b params n (i + 1)
                (acc ++ mapQuestionsToGenerated params l)).2) := by
  rw [fallbackLoop]
  dsimp only
  rw [hcc, hresp]
  dsimp only
  rw [if_pos rfl]

/-- With every alternative-path probe returning a non-ok response, the
probe phase yields nothing after six calls. -/
theorem altLoop_allNotOk (b : Backend) (params : GenParams)
    (halt : ∀ i, b.altResp i = .notOk 404 "Not Found") :
    altLoop b params [0, 1, 2, 3, 4, 5]
      = (none, [.altCall 0, .altCall 1, .altCall 2, .altCall 3,
          .altCall 4, .altCall 5]) := by
  simp [altLoop, halt 0, halt 1, halt 2, halt 3, halt 4, halt 5]

/-- C7: with the status and results endpoints permanently unavailable
(HTTP 500 resp. 404), no `pending` submission status, and a per-item
generation endpoint returning exactly the requested number of items per
call, a request for 25 items with the per-call cap of 10 makes the
degraded fallback issue exactly three sequential per-item calls, for 10,
10 and 5 items, and return exactly the 25 aggregated items. -/
theorem generateBatch_perItem_25_cap10 (b : Backend) (params : GenParams)
    (submitStatus : Option String) (pollInterval maxWaitTime fuel : Nat)
    (gen : Nat → Int → List BackendQuestion)
    (hs : ¬ (submitStatus = some "completed" ∨ submitStatus = some "ended"
        ∨ submitStatus = some "success"))
    (hsp : submitStatus ≠ some "pending")
    (hstat : b.statusResp 0 = .notOk 500 "Internal Server Error")
    (hres : b.resultsResp 0 = .notOk 404 "Not Found")
    (halt : ∀ i, b.altResp i = .notOk 404 "Not Found")
    (hcount : params.count = 25)
    (hper : ∀ i c, b.perItemResp i c = .ok ⟨true, some (gen i c), none, none, none⟩)
    (hlen : ∀ i c, (gen i c).length = c.toNat) :
    generateBatchAfterSubmit b params submitStatus pollInterval maxWaitTime (fuel + 1)
      = (.success ((mapQuestionsToGenerated params (gen 0 10)
            ++ mapQuestionsToGenerated params (gen 1 10))
            ++ mapQuestionsToGenerated params (gen 2 5)),
         [.statusCall 0, .sleep pollInterval, .resultsCall 0,
          .altCall 0, .altCall 1, .altCall 2, .altCall 3, .altCall 4, .altCall 5,
          .perItemCall 10, .perItemCall 10, .perItemCall 5])
      ∧ ((mapQuestionsToGenerated params (gen 0 10)
            ++ mapQuestionsToGenerated params (gen 1 10))
            ++ mapQuestionsToGenerated params (gen 2 5)).length = 25 := by
  have hL1 : ((([] : List GeneratedQuestion)
      ++ mapQuestionsToGenerated params (gen 0 10)).length : Int) = 10 := by
    simp [mapQuestionsToGenerated, hlen]
  have hL2 : (((([] : List GeneratedQuestion)
      ++ mapQuestionsToGenerated params (gen 0 10))
      ++ mapQuestionsToGenerated params (gen 1 10)).length : Int) = 20 := by
    simp [mapQuestionsToGenerated, hlen]
  have hmin0 : min ((params.count : Int)
      - ((([] : List GeneratedQuestion)).length : Int)) 10 = 10 := by
    rw [hcount]; decide
  have hmin1 : min ((params.count : Int)
      - ((([] : List GeneratedQuestion)
          ++ mapQuestionsToGenerated params (gen 0 10)).length : Int)) 10 = 10 := by
    rw [hcount, hL1]; decide
  have hmin2 : min ((params.count : Int)
      - (((([] : List GeneratedQuestion)
          ++ mapQuestionsToGenerated params (gen 0 10))
          ++ mapQuestionsToGenerated params (gen 1 10)).length : Int)) 10 = 5 := by
    rw [hcount, hL2]; decide
  have s2 := fallbackLoop_step_ok b params 0 2
    ((([] : List GeneratedQuestion)
      ++ mapQuestionsToGenerated params (gen 0 10))
      ++ mapQuestionsToGenerated params (gen 1 10))
    (gen 2 5) 5 hmin2 (hper 2 5)
  have s1 := fallbackLoop_step_ok b params 1 1
    (([] : List GeneratedQuestion)
      ++ mapQuestionsToGenerated params (gen 0 10))
    (gen 1 10) 10 hmin1 (hper 1 10)
  have s0 := fallbackLoop_step_ok b params 2 0 [] (gen 0 10) 10 hmin0 (hper 0 10)
  rw [show fallbackLoop b params 0 (2 + 1)
      (((([] : List GeneratedQuestion)
        ++ mapQuestionsToGenerated params (gen 0 10))
        ++ mapQuestionsToGenerated params (gen 1 10))
        ++ mapQuestionsToGenerated params (gen 2 5))
      = (.success (((([] : List GeneratedQuestion)
        ++ mapQuestionsToGenerated params (gen 0 10))
        ++ mapQuestionsToGenerated params (gen 1 10))
        ++ mapQuestionsToGenerated params (gen 2 5)), []) from rfl] at s2
  rw [show (1 + 1 : Nat) = 2 from rfl] at s1
  rw [show (0 + 1 : Nat) = 1 from rfl] at s2
  rw [s2] at s1
  rw [show (2 + 1 : Nat) = 3 from rfl, show (0 + 1 : Nat) = 1 from rfl] at s0
  rw [s1] at s0
  constructor
  · have hp := pollLoop_notOk b pollInterval maxWaitTime fuel 0 500
      "Internal Server Error" hstat
    unfold generateBatchAfterSubmit
    rw [if_neg hs]
    unfold mainPoll
    rw [hp]
    dsimp only
    rw [if_pos (by decide :
      matchesRecoveryPatterns (statusHttpErrMsg 500 "Internal Server Error") = true)]
    unfold runRecovery
    rw [hres]
    dsimp only
    unfold recoveryTail
    rw [altLoop_allNotOk b params halt]
    dsimp only
    rw [if_neg hsp]
    dsimp only
    rw [hcount, show ((25 + 9 : Nat) / 10) = 3 from by norm_num, s0]
    simp
  · simp [mapQuestionsToGenerated, hlen]

/-- Witness for `generateBatch_perItem_25_cap10` at the concrete
`backendPerItemOnly`, whose per-item endpoint replies with replicated
sample records. -/
theorem generateBatch_perItem_25_cap10_witness :
    generateBatchAfterSubmit backendPerItemOnly paramsWitness none 30 3600 5
      = (.success ((mapQuestionsToGenerated paramsWitness
            (List.replicate 10 (bqSample 0))
            ++ mapQuestionsToGenerated paramsWitness
              (List.replicate 10 (bqSample 1)))
            ++ mapQuestionsToGenerated paramsWitness
              (List.replicate 5 (bqSample 2))),
         [.statusCall 0, .sleep 30, .resultsCall 0,
          .altCall 0, .altCall 1, .altCall 2, .altCall 3, .altCall 4, .altCall 5,
          .perItemCall 10, .perItemCall 10, .perItemCall 5])
      ∧ ((mapQuestionsToGenerated paramsWitness (List.replicate 10 (bqSample 0))
            ++ mapQuestionsToGenerated paramsWitness (List.replicate 10 (bqSample 1)))
            ++ mapQuestionsToGenerated paramsWitness (List.replicate 5 (bqSample 2))).length
          = 25 := by
  have h := generateBatch_perItem_25_cap10 backendPerItemOnly paramsWitness
    none 30 3600 4 (fun i c => List.replicate c.toNat (bqSample i))
    (by simp) (by simp) rfl rfl (fun i => rfl) rfl (fun i c => rfl)
    (fun i c => by simp)
  exact h

/-- C8 amended: when the status endpoint fails (500), the recovery
results attempt and every alternative probe fail, and the per-item
fallback's first call also fails, the error surfaced to the caller is
the *fallback* error — `Batch generation failed and fallback also
failed: Regular generator failed: <code> - <msg>`, wrapped by the outer
catch — not the original polling error that triggered the fallback
chain; the original `Batch status check failed` message is discarded. -/
theorem generateBatch_surfaces_fallback_error (b : Backend)
    (params : GenParams) (submitStatus : Option String)
    (pollInterval maxWaitTime fuel : Nat) (code : Nat) (m : String)
    (hs : ¬ (submitStatus = some "completed" ∨ submitStatus = some "ended"
        ∨ submitStatus = some "success"))
    (hsp : submitStatus ≠ some "pending")
    (hstat : b.statusResp 0 = .notOk 500 "Internal Server Error")
    (hres : b.resultsResp 0 = .notOk 404 "Not Found")
    (halt : ∀ i, b.altResp i = .notOk 404 "Not Found")
    (hcount : 1 ≤ params.count)
    (hper : ∀ c, b.perItemResp 0 c = .notOk code m) :
    (generateBatchAfterSubmit b params submitStatus pollInterval maxWaitTime
        (fuel + 1)).1
      = .failure (wrapApi
          ("Batch generation failed and fallback also failed: Regular generator failed: "
            ++ toString code ++ " - " ++ m)) := by
  have hp := pollLoop_notOk b pollInterval maxWaitTime fuel 0 500
    "Internal Server Error" hstat
  obtain ⟨k, hk⟩ : ∃ k, (params.count + 9) / 10 = k + 1 :=
    ⟨(params.count + 9) / 10 - 1, by omega⟩
  unfold generateBatchAfterSubmit
  rw [if_neg hs]
  unfold mainPoll
  rw [hp]
  dsimp only
  rw [if_pos (by decide :
    matchesRecoveryPatterns (statusHttpErrMsg 500 "Internal Server Error") = true)]
  unfold runRecovery
  rw [hres]
  dsimp only
  unfold recoveryTail
  rw [altLoop_allNotOk b params halt]
  dsimp only
  rw [if_neg hsp]
  dsimp only
  rw [hk]
  rw [fallbackLoop]
  dsimp only
  rw [hper]

/-- Witness for the C8 amended theorem at the concrete backend
`backendAllFail` with five requested items. -/
theorem generateBatch_surfaces_fallback_error_witness :
    (generateBatchAfterSubmit backendAllFail paramsSmall none 30 3600 2).1
      = .failure (wrapApi
          ("Batch generation failed and fallback also failed: Regular generator failed: "
            ++ toString 503 ++ " - " ++ "Service Unavailable")) :=
  generateBatch_surfaces_fallback_error backendAllFail paramsSmall none 30 3600 1
    503 "Service Unavailable" (by decide) (by decide) rfl rfl (fun _ => rfl)
    (by decide) (fun _ => rfl)

/-- C8 counterexample: on the concrete `backendAllFail` (status 500,
results and alternatives 404, per-item 503) the surfaced error is the
wrapped fallback error; it is not the original polling error
`Batch status check failed: Batch status endpoint error (500)` and does
not even contain it. -/
theorem generateBatch_originalError_counterexample :
    (generateBatchAfterSubmit backendAllFail paramsSmall none 30 3600 2).1
      = .failure
          "Failed to generate batch questions from API: Batch generation failed and fallback also failed: Regular generator failed: 503 - Service Unavailable"
    ∧ strIncludes
        "Failed to generate batch questions from API: Batch generation failed and fallback also failed: Regular generator failed: 503 - Service Unavailable"
        "Batch status check failed: Batch status endpoint error (500)" = false
    ∧ (generateBatchAfterSubmit backendAllFail paramsSmall none 30 3600 2).1
      ≠ .failure (wrapApi "Batch status check failed: Batch status endpoint error (500)") := by
  refine ⟨by decide, by decide, by decide⟩

end McpServer
